import Mathlib

/-!
Shallow embedding of the Mau Mau rules engine
(`src/utils/gameUtils.ts` and the game handlers of `src/pages/Index.tsx`).

TypeScript arrays are modelled as Lean lists with the same index order:
index 0 is the array's first element, `push` appends at the end,
`pop` removes the last element.  `Math.random`-driven shuffling is
modelled by threading an explicit oracle `rand : List Nat` that supplies
the random index chosen at each Fisher-Yates step.
-/

namespace MauMau

inductive Suit where
  | hearts | diamonds | clubs | spades | joker
deriving DecidableEq, Repr

inductive Rank where
  | r2 | r3 | r4 | r5 | r6 | r7 | r8 | r9 | r10 | rJ | rQ | rK | rA | joker
deriving DecidableEq, Repr

def suitToString : Suit → String
  | Suit.hearts => "hearts"
  | Suit.diamonds => "diamonds"
  | Suit.clubs => "clubs"
  | Suit.spades => "spades"
  | Suit.joker => "joker"

def rankToString : Rank → String
  | Rank.r2 => "2"
  | Rank.r3 => "3"
  | Rank.r4 => "4"
  | Rank.r5 => "5"
  | Rank.r6 => "6"
  | Rank.r7 => "7"
  | Rank.r8 => "8"
  | Rank.r9 => "9"
  | Rank.r10 => "10"
  | Rank.rJ => "J"
  | Rank.rQ => "Q"
  | Rank.rK => "K"
  | Rank.rA => "A"
  | Rank.joker => "joker"

structure Card where
  id : String
  suit : Suit
  rank : Rank
  isRed : Bool
deriving DecidableEq, Repr

structure Player where
  id : String
  name : String
  cards : List Card
  score : Int
  saidMauMau : Bool
  isEliminated : Bool
deriving DecidableEq, Repr

inductive Direction where
  | clockwise | counterclockwise
deriving DecidableEq, Repr

structure GameSettings where
  initialScore : Int
  enableJokers : Bool
  enableBluffing : Bool
  enableMauMauRule : Bool
  autoCheckMauMau : Bool
deriving DecidableEq, Repr

structure GameState where
  players : List Player
  currentPlayerIndex : Nat
  deck : List Card
  discardPile : List Card
  direction : Direction
  gameStarted : Bool
  gameEnded : Bool
  winner : Option String
  lastAction : String
  settings : GameSettings
deriving DecidableEq, Repr

def defaultCard : Card := { id := "", suit := Suit.joker, rank := Rank.joker, isRed := false }

def defaultPlayer : Player :=
  { id := "", name := "", cards := [], score := 0, saidMauMau := false, isEliminated := false }

/-- Update the element at index `i` (TS `arr[i].field = ...`); no-op out of bounds. -/
def modifyAt (l : List α) (i : Nat) (f : α → α) : List α :=
  match l[i]? with
  | some x => l.set i (f x)
  | none => l

def INITIAL_SCORE : Int := 100

def INITIAL_CARDS : Nat := 7

def suitList : List Suit := [Suit.hearts, Suit.diamonds, Suit.clubs, Suit.spades]

def rankList : List Rank :=
  [Rank.r2, Rank.r3, Rank.r4, Rank.r5, Rank.r6, Rank.r7, Rank.r8, Rank.r9, Rank.r10,
   Rank.rJ, Rank.rQ, Rank.rK, Rank.rA]

/-- `createDeck` of `gameUtils.ts`: two standard 52-card decks, plus two jokers per
sub-deck when enabled. -/
def createDeck (includeJokers : Bool) : List Card :=
  (List.range 2).flatMap (fun d =>
    (suitList.flatMap (fun suit =>
      rankList.map (fun rank =>
        { id := suitToString suit ++ "-" ++ rankToString rank ++ "-" ++ toString d
          suit := suit
          rank := rank
          isRed := suit == Suit.hearts || suit == Suit.diamonds })))
    ++ (if includeJokers then
          [{ id := "joker-red-" ++ toString d, suit := Suit.joker, rank := Rank.joker, isRed := true },
           { id := "joker-black-" ++ toString d, suit := Suit.joker, rank := Rank.joker, isRed := false }]
        else []))

/-- Swap the entries at positions `i` and `j` (the body of the Fisher-Yates loop). -/
def listSwap (l : List α) (i j : Nat) : List α :=
  match l[i]?, l[j]? with
  | some x, some y => (l.set i y).set j x
  | _, _ => l

/-- One Fisher-Yates step at position `i`: `j = rand_i % (i+1)`, then swap. -/
def shuffleStep (rand : List Nat) (l : List α) (i : Nat) : List α :=
  listSwap l i (rand.getD i 0 % (i + 1))

/-- The Fisher-Yates loop of `shuffleDeck`, running `i` from the given start down to 1. -/
def shuffleAux (rand : List Nat) (l : List α) : Nat → List α
  | 0 => l
  | i + 1 => shuffleAux rand (shuffleStep rand l (i + 1)) i

/-- `shuffleDeck` of `gameUtils.ts`, with the random choices supplied by `rand`. -/
def shuffleDeck (rand : List Nat) (deck : List Card) : List Card :=
  shuffleAux rand deck (deck.length - 1)

/-- One pass of the inner dealing loop: give one card (popped from the end of the
deck) to each player in order; a player is skipped if the deck is empty. -/
def dealRound : List Player → List Card → List Player × List Card
  | [], deck => ([], deck)
  | p :: rest, deck =>
    match deck.getLast? with
    | none =>
      let r := dealRound rest deck
      (p :: r.1, r.2)
    | some card =>
      let r := dealRound rest deck.dropLast
      ({ p with cards := p.cards ++ [card] } :: r.1, r.2)

def dealLoop : Nat → List Player → List Card → List Player × List Card
  | 0, players, deck => (players, deck)
  | n + 1, players, deck =>
    let r := dealRound players deck
    dealLoop n r.1 r.2

/-- `dealCards` of `gameUtils.ts`: `INITIAL_CARDS` round-robin passes. -/
def dealCards (players : List Player) (deck : List Card) : List Player × List Card :=
  dealLoop INITIAL_CARDS players deck

/-- `isValidMove` of `gameUtils.ts`. -/
def isValidMove (cardToPlay : Card) (topCard : Card) (enableBluffing : Bool) : Bool :=
  if cardToPlay.rank == Rank.joker then true
  else if topCard.rank == Rank.joker then true
  else if enableBluffing then true
  else cardToPlay.suit == topCard.suit || cardToPlay.rank == topCard.rank

/-- `getNextPlayerIndex` of `gameUtils.ts`. -/
def getNextPlayerIndex (currentPlayerIndex : Nat) (direction : Direction)
    (playersCount : Nat) : Nat :=
  match direction with
  | Direction.clockwise => (currentPlayerIndex + 1) % playersCount
  | Direction.counterclockwise => (currentPlayerIndex + playersCount - 1) % playersCount

/-- `findWinner` of `gameUtils.ts`. -/
def findWinner (players : List Player) : Option String :=
  (players.find? (fun player => player.cards.length == 0)).map (fun p => p.id)

/-- `getCardPoints` of `gameUtils.ts`. -/
def getCardPoints (card : Card) : Int :=
  match card.rank with
  | Rank.joker => 20
  | Rank.rA => 15
  | Rank.rK => 10
  | Rank.rQ => 10
  | Rank.rJ => 10
  | Rank.r2 => 2
  | Rank.r3 => 3
  | Rank.r4 => 4
  | Rank.r5 => 5
  | Rank.r6 => 6
  | Rank.r7 => 7
  | Rank.r8 => 8
  | Rank.r9 => 9
  | Rank.r10 => 10

/-- `calculateScores` of `gameUtils.ts`. -/
def calculateScores (players : List Player) (winnerId : String) : List Player :=
  players.map (fun player =>
    if player.id == winnerId then player
    else
      let pointsToLose := player.cards.foldl (fun total card => total + getCardPoints card) 0
      { player with
          score := player.score - pointsToLose
          isEliminated := decide (player.score - pointsToLose ≤ 0) })

structure MauMauCheck where
  shouldPenalize : Bool
  message : String
deriving DecidableEq, Repr

/-- `checkMauMauStatus` of `gameUtils.ts`. -/
def checkMauMauStatus (player : Player) (hasSaidMauMau : Bool)
    (enableMauMauRule : Bool) : MauMauCheck :=
  if !enableMauMauRule then { shouldPenalize := false, message := "" }
  else if player.cards.length == 1 && !hasSaidMauMau then
    { shouldPenalize := true
      message := player.name ++ " esqueceu de dizer Mau Mau! +2 cartas de penalidade." }
  else { shouldPenalize := false, message := "" }

structure DrawResult where
  drawnCards : List Card
  updatedDeck : List Card
  updatedDiscardPile : List Card
  reshuffled : Bool
deriving DecidableEq, Repr

/-- The `for` loop of `drawCardsFromDeck`, one constructor step per iteration. -/
def drawLoop (rand : List Nat) : Nat → List Card → List Card → List Card → Bool → DrawResult
  | 0, deck, pile, drawn, resh => ⟨drawn, deck, pile, resh⟩
  | n + 1, deck, pile, drawn, resh =>
    if deck.isEmpty then
      if pile.length ≤ 1 then ⟨drawn, deck, pile, resh⟩
      else
        let topCard := pile.getLastD defaultCard
        let newDeck := shuffleDeck rand pile.dropLast
        drawLoop rand n newDeck.dropLast [topCard]
          (drawn ++ [newDeck.getLastD defaultCard]) true
    else
      drawLoop rand n deck.dropLast pile (drawn ++ [deck.getLastD defaultCard]) resh

/-- `drawCardsFromDeck` of `gameUtils.ts`. -/
def drawCardsFromDeck (rand : List Nat) (deck : List Card) (discardPile : List Card)
    (count : Nat) : DrawResult :=
  drawLoop rand count deck discardPile [] false

/-- `handleSpecialCard` of `gameUtils.ts`. -/
def handleSpecialCard (rand : List Nat) (playedCard : Card) (gameState : GameState) :
    GameState :=
  let nextPlayerIndex :=
    getNextPlayerIndex gameState.currentPlayerIndex gameState.direction gameState.players.length
  match playedCard.rank with
  | Rank.joker =>
    let targetPlayerIndex := nextPlayerIndex
    let targetPlayer := gameState.players.getD targetPlayerIndex defaultPlayer
    let r := drawCardsFromDeck rand gameState.deck gameState.discardPile 5
    if r.drawnCards.length > 0 then
      { gameState with
          players := modifyAt gameState.players targetPlayerIndex
            (fun p => { p with cards := p.cards ++ r.drawnCards })
          deck := r.updatedDeck
          discardPile := r.updatedDiscardPile
          currentPlayerIndex :=
            getNextPlayerIndex targetPlayerIndex gameState.direction gameState.players.length
          lastAction :=
            targetPlayer.name ++ " comprou 5 cartas e perdeu a vez!" ++
              (if r.reshuffled then " O monte foi reembaralhado." else "") }
    else
      { gameState with
          currentPlayerIndex := nextPlayerIndex
          lastAction := targetPlayer.name ++ " perdeu a vez!" }
  | Rank.rA =>
    let skippedPlayerName := (gameState.players.getD nextPlayerIndex defaultPlayer).name
    { gameState with
        currentPlayerIndex :=
          getNextPlayerIndex nextPlayerIndex gameState.direction gameState.players.length
        lastAction := skippedPlayerName ++ " foi pulado!" }
  | Rank.rQ =>
    let newDirection :=
      if gameState.direction = Direction.clockwise then Direction.counterclockwise
      else Direction.clockwise
    { gameState with
        direction := newDirection
        currentPlayerIndex :=
          getNextPlayerIndex gameState.currentPlayerIndex newDirection gameState.players.length
        lastAction := "Direção do jogo invertida!" }
  | Rank.r9 =>
    let prevPlayerIndex :=
      if gameState.direction = Direction.clockwise then
        (gameState.currentPlayerIndex + gameState.players.length - 1) % gameState.players.length
      else (gameState.currentPlayerIndex + 1) % gameState.players.length
    let prevPlayer := gameState.players.getD prevPlayerIndex defaultPlayer
    if gameState.deck.length > 0 then
      { gameState with
          players := modifyAt gameState.players prevPlayerIndex
            (fun p => { p with cards := p.cards ++ [gameState.deck.getLastD defaultCard] })
          deck := gameState.deck.dropLast
          currentPlayerIndex := nextPlayerIndex
          lastAction := prevPlayer.name ++ " comprou uma carta!" }
    else if gameState.discardPile.length > 1 then
      let topCard := gameState.discardPile.getLastD defaultCard
      let newDeck := shuffleDeck rand gameState.discardPile.dropLast
      { gameState with
          players := modifyAt gameState.players prevPlayerIndex
            (fun p => { p with cards := p.cards ++ [newDeck.getLastD defaultCard] })
          deck := newDeck.dropLast
          discardPile := [topCard]
          currentPlayerIndex := nextPlayerIndex
          lastAction :=
            "Baralho foi embaralhado novamente. " ++ prevPlayer.name ++ " comprou uma carta!" }
    else
      { gameState with currentPlayerIndex := nextPlayerIndex }
  | _ => { gameState with currentPlayerIndex := nextPlayerIndex }

/-- `handlePlayCard` of `Index.tsx` (the pure state transition; toasts and timers
are UI side effects with no bearing on the resulting `GameState`).  Note that in
the penalty branch the source keeps its own copy of the discard pile and only
takes `updatedDeck` from `drawCardsFromDeck`. -/
def handlePlayCard (rand : List Nat) (cardToPlay : Card) (gs : GameState) : GameState :=
  let currentPlayer := gs.players.getD gs.currentPlayerIndex defaultPlayer
  let topCard := gs.discardPile.getLastD defaultCard
  if !isValidMove cardToPlay topCard gs.settings.enableBluffing then gs
  else
    let mauMauCheck :=
      checkMauMauStatus currentPlayer currentPlayer.saidMauMau gs.settings.enableMauMauRule
    let penalize := mauMauCheck.shouldPenalize && !gs.settings.autoCheckMauMau
    let r := drawCardsFromDeck rand gs.deck gs.discardPile 2
    let players1 :=
      if penalize then
        modifyAt gs.players gs.currentPlayerIndex
          (fun p => { p with cards := p.cards ++ r.drawnCards })
      else gs.players
    let deck1 := if penalize then r.updatedDeck else gs.deck
    let lastAction1 := if penalize then mauMauCheck.message else ""
    let players2 :=
      modifyAt players1 gs.currentPlayerIndex
        (fun p => { p with cards := p.cards.filter (fun card => card.id ≠ cardToPlay.id) })
    let discard2 := gs.discardPile ++ [cardToPlay]
    let winner :=
      if (players2.getD gs.currentPlayerIndex defaultPlayer).cards.length == 0 then
        some (players2.getD gs.currentPlayerIndex defaultPlayer).id
      else none
    let updatedState : GameState :=
      { gs with
          players := players2
          deck := deck1
          discardPile := discard2
          winner := winner
          gameEnded := winner.isSome
          lastAction :=
            if lastAction1 ≠ "" then lastAction1
            else currentPlayer.name ++ " played " ++ rankToString cardToPlay.rank ++
              " of " ++ suitToString cardToPlay.suit ++ "." }
    match winner with
    | none =>
      let st := handleSpecialCard rand cardToPlay updatedState
      { st with players := st.players.map (fun player => { player with saidMauMau := false }) }
    | some w =>
      { updatedState with
          players := calculateScores updatedState.players w
          lastAction := currentPlayer.name ++ " won the round!" }

/-- `handleDrawCard` of `Index.tsx`.  When nothing could be drawn the handler
returns before calling `setGameState`, so the state is unchanged. -/
def handleDrawCard (rand : List Nat) (gs : GameState) : GameState :=
  let r := drawCardsFromDeck rand gs.deck gs.discardPile 1
  if r.drawnCards.length == 0 then gs
  else
    let players1 :=
      modifyAt gs.players gs.currentPlayerIndex
        (fun p => { p with cards := p.cards ++ r.drawnCards })
    let topCard := gs.discardPile.getLastD defaultCard
    let drawnCard := r.drawnCards.getD 0 defaultCard
    let canPlayDrawnCard := isValidMove drawnCard topCard gs.settings.enableBluffing
    let lastAction1 :=
      (gs.players.getD gs.currentPlayerIndex defaultPlayer).name ++ " drew a card." ++
        (if r.reshuffled then " The deck was reshuffled." else "")
    let nextPlayerIndex :=
      if !canPlayDrawnCard then
        getNextPlayerIndex gs.currentPlayerIndex gs.direction gs.players.length
      else gs.currentPlayerIndex
    let players2 :=
      if !canPlayDrawnCard then
        players1.map (fun player => { player with saidMauMau := false })
      else players1
    { gs with
        players := players2
        deck := r.updatedDeck
        discardPile := r.updatedDiscardPile
        currentPlayerIndex := nextPlayerIndex
        lastAction := lastAction1 }

/-- `handleSayMauMau` of `Index.tsx` (sound and toast are UI side effects). -/
def handleSayMauMau (gs : GameState) : GameState :=
  let players1 :=
    modifyAt gs.players gs.currentPlayerIndex (fun p => { p with saidMauMau := true })
  { gs with
      players := players1
      lastAction :=
        (players1.getD gs.currentPlayerIndex defaultPlayer).name ++ " said Mau Mau!" }

/-- `handleRestartGame` of `Index.tsx`: `none` models the early return (match end,
prior state untouched). -/
def handleRestartGame (rand : List Nat) (gs : GameState) : Option GameState :=
  let updatedPlayers := gs.players.map (fun player =>
    { player with
        cards := []
        saidMauMau := false
        isEliminated := decide (player.score ≤ 0) })
  let activePlayers := updatedPlayers.filter (fun player => !player.isEliminated)
  if activePlayers.length < 2 then none
  else
    let deck := shuffleDeck rand (createDeck gs.settings.enableJokers)
    let dealt := dealCards activePlayers deck
    let firstCard := dealt.2.getLastD defaultCard
    some
      { players := dealt.1
        currentPlayerIndex := 0
        deck := dealt.2.dropLast
        discardPile := [firstCard]
        direction := Direction.clockwise
        gameStarted := true
        gameEnded := false
        winner := none
        lastAction := "New round started!"
        settings := gs.settings }

/-- `getDefaultGameSettings` of `gameUtils.ts`. -/
def getDefaultGameSettings : GameSettings :=
  { initialScore := INITIAL_SCORE
    enableJokers := false
    enableBluffing := false
    enableMauMauRule := true
    autoCheckMauMau := true }

/-- The spec's conserved quantity: total number of cards over all hands, the
deck and the discard pile. -/
def totalCards (s : GameState) : Nat :=
  (s.players.map (fun p => p.cards.length)).sum + s.deck.length + s.discardPile.length

/-- Hand value used by the scoring spec: sum of `getCardPoints` over a hand. -/
def handPoints (p : Player) : Int :=
  (p.cards.map getCardPoints).sum

def mkCard (i : String) (s : Suit) (r : Rank) : Card :=
  { id := i, suit := s, rank := r, isRed := false }

def cardH5 : Card := mkCard "h5" Suit.hearts Rank.r5
def cardC2 : Card := mkCard "c2" Suit.clubs Rank.r2
def cardH9 : Card := mkCard "h9" Suit.hearts Rank.r9
def cardS3 : Card := mkCard "s3" Suit.spades Rank.r3
def cardSK : Card := mkCard "sk" Suit.spades Rank.rK
def cardJoker : Card := mkCard "jk" Suit.joker Rank.joker

/-- Settings with the last-card rule enforced manually (no auto-check). -/
def manualSettings : GameSettings :=
  { initialScore := 100, enableJokers := false, enableBluffing := false,
    enableMauMauRule := true, autoCheckMauMau := false }

def mkPlayer (i : String) (cs : List Card) : Player :=
  { id := i, name := i, cards := cs, score := 100, saidMauMau := false, isEliminated := false }

/-- Two players; the current one holds a single matching card and has not
declared; the deck is empty and the discard pile holds two cards, so the
last-card penalty draw forces a reshuffle. -/
def stateC1 : GameState :=
  { players := [mkPlayer "p0" [cardH5], mkPlayer "p1" [cardS3]]
    currentPlayerIndex := 0
    deck := []
    discardPile := [cardC2, cardH9]
    direction := Direction.clockwise
    gameStarted := true, gameEnded := false, winner := none
    lastAction := "", settings := manualSettings }

/-- Three players; a wildcard was just played onto an otherwise exhausted
table (empty deck, one-card discard pile), so nothing can be drawn. -/
def stateC2 : GameState :=
  { players := [mkPlayer "a" [cardS3], mkPlayer "b" [cardS3], mkPlayer "c" [cardS3]]
    currentPlayerIndex := 0
    deck := []
    discardPile := [cardJoker]
    direction := Direction.clockwise
    gameStarted := true, gameEnded := false, winner := none
    lastAction := "x", settings := manualSettings }

/-- Two players; the current one holds a single matching card and has not
declared; the deck is empty and the discard pile holds a single card, so the
penalty draw yields nothing. -/
def stateC3 : GameState :=
  { players := [mkPlayer "p0" [cardH5], mkPlayer "p1" [cardS3]]
    currentPlayerIndex := 0
    deck := []
    discardPile := [cardH9]
    direction := Direction.clockwise
    gameStarted := true, gameEnded := false, winner := none
    lastAction := "", settings := manualSettings }

/-- Two players; one card in the deck, which does not match the discard top. -/
def stateC4 : GameState :=
  { players := [mkPlayer "a" [cardH5], mkPlayer "b" [cardH9]]
    currentPlayerIndex := 0
    deck := [cardC2]
    discardPile := [cardS3]
    direction := Direction.clockwise
    gameStarted := true, gameEnded := false, winner := none
    lastAction := "x", settings := manualSettings }

/-- Two players; the current one holds a single matching non-special card and
has not declared; the deck holds two cards, so the penalty draw can be served
in full. -/
def stateC3w : GameState :=
  { players := [mkPlayer "p0" [cardH5], mkPlayer "p1" [cardSK]]
    currentPlayerIndex := 0
    deck := [cardC2, cardS3]
    discardPile := [cardH9]
    direction := Direction.clockwise
    gameStarted := true, gameEnded := false, winner := none
    lastAction := "", settings := manualSettings }

/-- Round winner with an empty hand. -/
def playerA : Player :=
  { id := "A", name := "A", cards := [], score := 100, saidMauMau := false,
    isEliminated := false }

/-- Non-winner holding a King and a 5. -/
def playerB : Player :=
  { id := "B", name := "B", cards := [cardSK, cardH5], score := 100, saidMauMau := false,
    isEliminated := false }

/-! ### List helper lemmas -/

theorem perm_cons_set {α} (l : List α) (k : Nat) (x y : α) (h : l[k]? = some y) :
    (y :: l.set k x).Perm (x :: l) := by
  induction l generalizing k with
  | nil => simp at h
  | cons a t ih =>
    cases k with
    | zero =>
      simp only [List.getElem?_cons_zero, Option.some.injEq] at h
      subst h
      simpa using List.Perm.swap x a t
    | succ k =>
      simp only [List.getElem?_cons_succ] at h
      have h1 : (y :: a :: t.set k x).Perm (a :: y :: t.set k x) := List.Perm.swap a y _
      have h2 : (a :: y :: t.set k x).Perm (a :: x :: t) := (ih k h).cons a
      have h3 : (a :: x :: t).Perm (x :: a :: t) := List.Perm.swap x a t
      simpa using (h1.trans h2).trans h3

theorem listSwap_perm {α} (l : List α) (i j : Nat) : (listSwap l i j).Perm l := by
  unfold listSwap
  cases hi : l[i]? with
  | none => exact List.Perm.refl l
  | some x =>
    cases hj : l[j]? with
    | none => exact List.Perm.refl l
    | some y =>
      have hij : (l.set i y)[j]? = some y := by
        rw [List.getElem?_set]
        by_cases hij : i = j
        · subst hij
          have : i < l.length := (List.getElem?_eq_some_iff.mp hi).1
          simp [this]
        · simp [hij, hj]
      have p1 : (y :: (l.set i y).set j x).Perm (x :: l.set i y) :=
        perm_cons_set (l.set i y) j x y hij
      have p2 : (x :: l.set i y).Perm (y :: l) := perm_cons_set l i y x hi
      exact (p1.trans p2).cons_inv

theorem shuffleStep_perm {α} (rand : List Nat) (l : List α) (i : Nat) :
    (shuffleStep rand l i).Perm l := listSwap_perm ..

theorem shuffleAux_perm {α} (rand : List Nat) (l : List α) (n : Nat) :
    (shuffleAux rand l n).Perm l := by
  induction n generalizing l with
  | zero => exact List.Perm.refl l
  | succ i ih => exact (ih _).trans (shuffleStep_perm rand l (i + 1))

theorem shuffleDeck_perm (rand : List Nat) (deck : List Card) :
    (shuffleDeck rand deck).Perm deck := shuffleAux_perm ..

theorem shuffleDeck_length (rand : List Nat) (deck : List Card) :
    (shuffleDeck rand deck).length = deck.length :=
  (shuffleDeck_perm rand deck).length_eq

theorem getLastD_mem {α} (l : List α) (d : α) (h : l ≠ []) : l.getLastD d ∈ l := by
  rw [List.getLastD_eq_getLast?, List.getLast?_eq_getLast l h]
  exact List.getLast_mem h

theorem getLastD_cons_dropLast_perm {α} (l : List α) (d : α) (h : l ≠ []) :
    (l.getLastD d :: l.dropLast).Perm l := by
  have h1 : l.getLastD d :: l.dropLast = [l.getLastD d] ++ l.dropLast := rfl
  have h2 : ([l.getLastD d] ++ l.dropLast).Perm (l.dropLast ++ [l.getLastD d]) :=
    List.perm_append_comm
  have h3 : l.dropLast ++ [l.getLastD d] = l := by
    rw [List.getLastD_eq_getLast?, List.getLast?_eq_getLast l h]
    exact List.dropLast_append_getLast h
  rw [h1]
  rw [h3] at h2
  exact h2

theorem modifyAt_length {α} (l : List α) (i : Nat) (f : α → α) :
    (modifyAt l i f).length = l.length := by
  unfold modifyAt
  cases h : l[i]? <;> simp

theorem modifyAt_getElem?_self {α} (l : List α) (i : Nat) (f : α → α) (h : i < l.length) :
    (modifyAt l i f)[i]? = some (f l[i]) := by
  unfold modifyAt
  rw [List.getElem?_eq_getElem h]
  simpa using List.getElem?_set_self (by simpa using h)

theorem modifyAt_getElem?_ne {α} (l : List α) (i j : Nat) (f : α → α) (h : i ≠ j) :
    (modifyAt l i f)[j]? = l[j]? := by
  unfold modifyAt
  cases hi : l[i]? with
  | none => rfl
  | some x => exact List.getElem?_set_ne h

theorem modifyAt_getD_self {α} (l : List α) (i : Nat) (f : α → α) (d : α) (h : i < l.length) :
    (modifyAt l i f).getD i d = f (l.getD i d) := by
  rw [List.getD_eq_getElem?_getD, List.getD_eq_getElem?_getD,
    modifyAt_getElem?_self l i f h, List.getElem?_eq_getElem h]
  rfl

/-! ### Draw-loop lemmas -/

theorem drawLoop_drawn_length (rand : List Nat) (n : Nat) (deck pile drawn : List Card)
    (resh : Bool) :
    (drawLoop rand n deck pile drawn resh).drawnCards.length =
      drawn.length + min n (deck.length + (pile.length - 1)) := by
  induction n generalizing deck pile drawn resh with
  | zero => simp [drawLoop]
  | succ n ih =>
    rw [drawLoop]
    by_cases hd : deck.isEmpty
    · have hdeck : deck = [] := List.isEmpty_iff.mp hd
      subst hdeck
      rw [if_pos hd]
      by_cases hp : pile.length ≤ 1
      · rw [if_pos hp]
        simp only [List.length_nil]
        omega
      · rw [if_neg hp, ih]
        have hlen : (shuffleDeck rand pile.dropLast).length = pile.length - 1 := by
          rw [shuffleDeck_length, List.length_dropLast]
        simp only [List.length_append, List.length_dropLast, hlen, List.length_cons,
          List.length_nil]
        omega
    · rw [if_neg hd, ih]
      have : deck ≠ [] := fun h => hd (by simp [h])
      have hdl : 0 < deck.length := List.length_pos.mpr this
      simp only [List.length_append, List.length_dropLast, List.length_cons, List.length_nil]
      omega

theorem drawLoop_pile_dichotomy (rand : List Nat) (n : Nat) (deck pile drawn : List Card)
    (resh : Bool) :
    (drawLoop rand n deck pile drawn resh).updatedDiscardPile = pile ∨
      (drawLoop rand n deck pile drawn resh).updatedDiscardPile = [pile.getLastD defaultCard] := by
  induction n generalizing deck pile drawn resh with
  | zero => left; rfl
  | succ n ih =>
    rw [drawLoop]
    by_cases hd : deck.isEmpty
    · rw [if_pos hd]
      by_cases hp : pile.length ≤ 1
      · rw [if_pos hp]
        left; rfl
      · rw [if_neg hp]
        rcases ih ((shuffleDeck rand pile.dropLast).dropLast) [pile.getLastD defaultCard]
            (drawn ++ [(shuffleDeck rand pile.dropLast).getLastD defaultCard]) true with h | h
        · right; exact h
        · right; rw [h]; rfl
    · rw [if_neg hd]
      exact ih _ _ _ _

theorem drawLoop_pile_small (rand : List Nat) (n : Nat) (deck pile drawn : List Card)
    (resh : Bool) (hp : pile.length ≤ 1) :
    (drawLoop rand n deck pile drawn resh).updatedDiscardPile = pile := by
  induction n generalizing deck drawn resh with
  | zero => rfl
  | succ n ih =>
    rw [drawLoop]
    by_cases hd : deck.isEmpty
    · rw [if_pos hd, if_pos hp]
    · rw [if_neg hd]
      exact ih _ _ _

theorem drawLoop_subset (rand : List Nat) (n : Nat) (deck pile drawn : List Card)
    (resh : Bool) :
    ∀ x ∈ (drawLoop rand n deck pile drawn resh).drawnCards,
      x ∈ drawn ∨ x ∈ deck ∨ x ∈ pile := by
  induction n generalizing deck pile drawn resh with
  | zero => intro x hx; left; exact hx
  | succ n ih =>
    rw [drawLoop]
    by_cases hd : deck.isEmpty
    · have hdeck : deck = [] := List.isEmpty_iff.mp hd
      subst hdeck
      rw [if_pos hd]
      by_cases hp : pile.length ≤ 1
      · rw [if_pos hp]
        intro x hx; left; exact hx
      · rw [if_neg hp]
        intro x hx
        have hpile : pile ≠ [] := by
          intro h; rw [h] at hp; simp at hp
        have hsh : (shuffleDeck rand pile.dropLast).Perm pile.dropLast :=
          shuffleDeck_perm rand pile.dropLast
        have hshne : shuffleDeck rand pile.dropLast ≠ [] := by
          intro h
          have := shuffleDeck_length rand pile.dropLast
          rw [h] at this
          simp only [List.length_nil, List.length_dropLast] at this
          omega
        rcases ih _ _ _ _ x hx with h | h | h
        · rcases List.mem_append.mp h with h | h
          · left; exact h
          · right; right
            have hmem : (shuffleDeck rand pile.dropLast).getLastD defaultCard ∈
                shuffleDeck rand pile.dropLast := getLastD_mem _ _ hshne
            have : (shuffleDeck rand pile.dropLast).getLastD defaultCard ∈ pile.dropLast :=
              hsh.mem_iff.mp hmem
            have hx' : x = (shuffleDeck rand pile.dropLast).getLastD defaultCard := by
              simpa using h
            rw [hx']
            exact List.dropLast_subset pile this
        · right; right
          have : x ∈ shuffleDeck rand pile.dropLast := List.dropLast_subset _ h
          exact List.dropLast_subset pile (hsh.mem_iff.mp this)
        · right; right
          have hx' : x = pile.getLastD defaultCard := by simpa using h
          rw [hx']
          exact getLastD_mem pile defaultCard hpile
    · rw [if_neg hd]
      intro x hx
      have hdeck : deck ≠ [] := fun h => hd (by simp [h])
      rcases ih _ _ _ _ x hx with h | h | h
      · rcases List.mem_append.mp h with h | h
        · left; exact h
        · right; left
          have hx' : x = deck.getLastD defaultCard := by simpa using h
          rw [hx']
          exact getLastD_mem deck defaultCard hdeck
      · right; left; exact List.dropLast_subset deck h
      · right; right; exact h

theorem drawLoop_reshuffled (rand : List Nat) (n : Nat) (deck pile drawn : List Card)
    (resh : Bool) :
    (drawLoop rand n deck pile drawn resh).reshuffled =
      (resh || (decide (deck.length < n) && decide (1 < pile.length))) := by
  induction n generalizing deck pile drawn resh with
  | zero => simp [drawLoop]
  | succ n ih =>
    rw [drawLoop]
    by_cases hd : deck.isEmpty
    · have hdeck : deck = [] := List.isEmpty_iff.mp hd
      subst hdeck
      rw [if_pos hd]
      by_cases hp : pile.length ≤ 1
      · rw [if_pos hp]
        have h1 : ¬ (1 : Nat) < pile.length := by omega
        simp [h1]
      · rw [if_neg hp, ih]
        have h1 : (1 : Nat) < pile.length := by omega
        have h2 : (0 : Nat) < n + 1 := by omega
        simp [h1, h2]
    · rw [if_neg hd, ih]
      have hdeck : deck ≠ [] := fun h => hd (by simp [h])
      have hdl : 0 < deck.length := List.length_pos.mpr hdeck
      have : (decide (deck.dropLast.length < n)) = (decide (deck.length < n + 1)) := by
        simp only [List.length_dropLast]
        by_cases h : deck.length < n + 1
        · have h' : deck.length - 1 < n := by omega
          simp [h, h']
        · have h' : ¬ deck.length - 1 < n := by omega
          simp [h, h']
      rw [this]

/-! ### Dealing lemmas -/

theorem dealRound_spec (ps : List Player) (d : List Card) (h : ps.length ≤ d.length) :
    (dealRound ps d).1.map (fun p => p.id) = ps.map (fun p => p.id) ∧
    (dealRound ps d).1.map (fun p => p.score) = ps.map (fun p => p.score) ∧
    (dealRound ps d).1.map (fun p => p.cards.length) = ps.map (fun p => p.cards.length + 1) ∧
    (dealRound ps d).2.length = d.length - ps.length := by
  induction ps generalizing d with
  | nil => simp [dealRound]
  | cons p rest ih =>
    have hd : d ≠ [] := by
      intro hh; rw [hh] at h; simp at h
    obtain ⟨c, hc⟩ : ∃ c, d.getLast? = some c :=
      Option.isSome_iff_exists.mp (List.getLast?_isSome.mpr hd)
    have hlen : rest.length ≤ d.dropLast.length := by
      rw [List.length_dropLast]
      simp only [List.length_cons] at h
      omega
    obtain ⟨ih1, ih2, ih3, ih4⟩ := ih d.dropLast hlen
    simp only [dealRound, hc]
    refine ⟨?_, ?_, ?_, ?_⟩
    · simp only [List.map_cons, ih1]
    · simp only [List.map_cons, ih2]
    · simp only [List.map_cons, ih3, List.length_append, List.length_cons, List.length_nil]
    · rw [ih4, List.length_dropLast]
      simp only [List.length_cons]
      omega

theorem dealLoop_spec (k : Nat) (ps : List Player) (d : List Card)
    (h : k * ps.length ≤ d.length) :
    (dealLoop k ps d).1.map (fun p => p.id) = ps.map (fun p => p.id) ∧
    (dealLoop k ps d).1.map (fun p => p.score) = ps.map (fun p => p.score) ∧
    (dealLoop k ps d).1.map (fun p => p.cards.length) = ps.map (fun p => p.cards.length + k) ∧
    (dealLoop k ps d).2.length = d.length - k * ps.length := by
  induction k generalizing ps d with
  | zero => simp [dealLoop]
  | succ k ih =>
    rw [Nat.succ_mul] at h
    have h1 : ps.length ≤ d.length := by omega
    obtain ⟨r1, r2, r3, r4⟩ := dealRound_spec ps d h1
    have hplen : (dealRound ps d).1.length = ps.length := by
      have := congrArg List.length r1
      simpa using this
    have h2 : k * (dealRound ps d).1.length ≤ (dealRound ps d).2.length := by
      rw [hplen, r4]; omega
    obtain ⟨i1, i2, i3, i4⟩ := ih (dealRound ps d).1 (dealRound ps d).2 h2
    rw [dealLoop]
    refine ⟨?_, ?_, ?_, ?_⟩
    · rw [i1, r1]
    · rw [i2, r2]
    · rw [i3]
      have hmm : (dealRound ps d).1.map (fun p => p.cards.length + k) =
          ((dealRound ps d).1.map (fun p => p.cards.length)).map (fun m => m + k) := by
        rw [List.map_map]; rfl
      rw [hmm, r3, List.map_map]
      refine List.map_congr_left (fun a _ => ?_)
      simp only [Function.comp]
      omega
    · rw [i4, hplen, r4, Nat.succ_mul]
      omega

/-! ### Special-card dispatch on a non-special rank -/

theorem handleSpecialCard_default (rand : List Nat) (c : Card) (gs : GameState)
    (hj : c.rank ≠ Rank.joker) (ha : c.rank ≠ Rank.rA) (hq : c.rank ≠ Rank.rQ)
    (h9 : c.rank ≠ Rank.r9) :
    handleSpecialCard rand c gs =
      { gs with currentPlayerIndex :=
          getNextPlayerIndex gs.currentPlayerIndex gs.direction gs.players.length } := by
  cases hc : c.rank with
  | joker => exact absurd hc hj
  | rA => exact absurd hc ha
  | rQ => exact absurd hc hq
  | r9 => exact absurd hc h9
  | r2 => simp [handleSpecialCard, hc]
  | r3 => simp [handleSpecialCard, hc]
  | r4 => simp [handleSpecialCard, hc]
  | r5 => simp [handleSpecialCard, hc]
  | r6 => simp [handleSpecialCard, hc]
  | r7 => simp [handleSpecialCard, hc]
  | r8 => simp [handleSpecialCard, hc]
  | r10 => simp [handleSpecialCard, hc]
  | rJ => simp [handleSpecialCard, hc]
  | rK => simp [handleSpecialCard, hc]

/-! ### Claim theorems -/

/-- Claim C1 (card conservation) fails on the code: in `handlePlayCard` the
last-card penalty branch takes only `updatedDeck` from `drawCardsFromDeck` and
keeps its own discard pile, so a penalty draw that triggers a reshuffle
duplicates cards.  At `stateC1` (current player holds one matching card, has
not declared, deck empty, two-card discard) the total card count grows from 4
to 5 and `cardC2` ends up both in the player's hand and in the discard pile. -/
theorem C1_conservation_violated :
    totalCards stateC1 = 4 ∧
    totalCards (handlePlayCard [] cardH5 stateC1) = 5 ∧
    cardC2 ∈ ((handlePlayCard [] cardH5 stateC1).players.getD 0 defaultPlayer).cards ∧
    cardC2 ∈ (handlePlayCard [] cardH5 stateC1).discardPile := by decide

/-- Claim C2 (wildcard always skips the next player) fails on the code: in
`handleSpecialCard`'s joker branch the skip only happens inside
`if (drawnCards.length > 0)`; when the deck and discard pile are exhausted the
would-be-next player still becomes the current player while the recorded
message claims they lost their turn. -/
theorem C2_wildcard_no_skip_when_exhausted :
    (drawCardsFromDeck [] stateC2.deck stateC2.discardPile 5).drawnCards = [] ∧
    (handleSpecialCard [] cardJoker stateC2).currentPlayerIndex = 1 ∧
    getNextPlayerIndex (getNextPlayerIndex stateC2.currentPlayerIndex stateC2.direction 3)
      stateC2.direction 3 = 2 ∧
    (handleSpecialCard [] cardJoker stateC2).lastAction = "b perdeu a vez!" := by decide

/-- Claim C3 as stated is false: at `stateC3` the last-card rule is enabled,
auto-check disabled, the current player holds exactly one matching card and has
not declared, yet — because the deck is empty and the discard pile holds a
single card — the penalty draw yields 0 cards, the hand ends empty, a winner is
set and the game ends. -/
theorem C3_counterexample :
    stateC3.settings.enableMauMauRule = true ∧
    stateC3.settings.autoCheckMauMau = false ∧
    (stateC3.players.getD 0 defaultPlayer).cards.length = 1 ∧
    (stateC3.players.getD 0 defaultPlayer).saidMauMau = false ∧
    isValidMove cardH5 (stateC3.discardPile.getLastD defaultCard)
      stateC3.settings.enableBluffing = true ∧
    (handlePlayCard [] cardH5 stateC3).winner = some "p0" ∧
    (handlePlayCard [] cardH5 stateC3).gameEnded = true ∧
    ((handlePlayCard [] cardH5 stateC3).players.getD 0 defaultPlayer).cards.length = 0 := by
  decide

/-- Claim C5: `isValidMove c t false` holds iff the suits match, the ranks
match, or either card is a wildcard; with bluffing enabled it always holds. -/
theorem C5_isValidMove (c t : Card) :
    (isValidMove c t false = true ↔
      c.suit = t.suit ∨ c.rank = t.rank ∨ c.rank = Rank.joker ∨ t.rank = Rank.joker) ∧
    isValidMove c t true = true := by
  constructor
  · unfold isValidMove
    by_cases h1 : c.rank = Rank.joker
    · simp [h1]
    · by_cases h2 : t.rank = Rank.joker
      · simp [h1, h2]
      · simp [h1, h2]
  · unfold isValidMove
    by_cases h1 : c.rank = Rank.joker <;> by_cases h2 : t.rank = Rank.joker <;> simp [h1, h2]

/-- Claim C6: `drawCardsFromDeck` draws up to `count` cards from the end of the
deck; when the deck is empty and the discard pile holds more than one card, the
top is held aside, the rest is shuffled into the new deck, the pile is reset to
the held card and `reshuffled` is reported true; with at most one discard card
left it stops early instead of erroring.  In the concrete scenario (empty deck,
5-card discard, draw 1) this yields `reshuffled = true`, a one-card pile (the
previous top) and a 3-card deck whose contents together with the drawn card are
exactly the four reshuffled cards. -/
theorem C6_reshuffle_mechanics :
    (∀ (rand : List Nat) (c1 c2 c3 c4 c5 : Card),
      (drawCardsFromDeck rand [] [c1, c2, c3, c4, c5] 1).reshuffled = true ∧
      (drawCardsFromDeck rand [] [c1, c2, c3, c4, c5] 1).updatedDiscardPile = [c5] ∧
      (drawCardsFromDeck rand [] [c1, c2, c3, c4, c5] 1).updatedDeck.length = 3 ∧
      (drawCardsFromDeck rand [] [c1, c2, c3, c4, c5] 1).drawnCards.length = 1 ∧
      ((drawCardsFromDeck rand [] [c1, c2, c3, c4, c5] 1).drawnCards ++
        (drawCardsFromDeck rand [] [c1, c2, c3, c4, c5] 1).updatedDeck).Perm
          [c1, c2, c3, c4]) ∧
    (∀ (rand : List Nat) (deck pile : List Card) (n : Nat),
      (drawCardsFromDeck rand deck pile n).drawnCards.length ≤ n) ∧
    (∀ (rand : List Nat) (pile : List Card) (n : Nat), pile.length ≤ 1 →
      drawCardsFromDeck rand [] pile n =
        { drawnCards := [], updatedDeck := [], updatedDiscardPile := pile,
          reshuffled := false }) ∧
    (∀ (rand : List Nat) (deck pile : List Card) (n : Nat),
      (drawCardsFromDeck rand deck pile n).reshuffled = true ↔
        (deck.length < n ∧ 1 < pile.length)) := by
  refine ⟨?_, ?_, ?_, ?_⟩
  · intro rand c1 c2 c3 c4 c5
    have hne : shuffleDeck rand [c1, c2, c3, c4] ≠ [] := by
      intro h
      have := shuffleDeck_length rand [c1, c2, c3, c4]
      rw [h] at this
      simp at this
    have hstep : drawCardsFromDeck rand [] [c1, c2, c3, c4, c5] 1 =
        { drawnCards := [(shuffleDeck rand [c1, c2, c3, c4]).getLastD defaultCard],
          updatedDeck := (shuffleDeck rand [c1, c2, c3, c4]).dropLast,
          updatedDiscardPile := [c5],
          reshuffled := true } := by
      have hcond : ¬ ([c1, c2, c3, c4, c5].length ≤ 1) := by simp
      rw [drawCardsFromDeck, drawLoop,
        if_pos (show ([] : List Card).isEmpty = true from rfl), if_neg hcond]
      rfl
    rw [hstep]
    refine ⟨rfl, rfl, ?_, rfl, ?_⟩
    · rw [List.length_dropLast, shuffleDeck_length]
      rfl
    · have h1 : ((shuffleDeck rand [c1, c2, c3, c4]).getLastD defaultCard ::
          (shuffleDeck rand [c1, c2, c3, c4]).dropLast).Perm
          (shuffleDeck rand [c1, c2, c3, c4]) :=
        getLastD_cons_dropLast_perm _ _ hne
      exact h1.trans (shuffleDeck_perm rand [c1, c2, c3, c4])
  · intro rand deck pile n
    have := drawLoop_drawn_length rand n deck pile [] false
    rw [drawCardsFromDeck, this]
    simp only [List.length_nil, Nat.zero_add]
    omega
  · intro rand pile n hp
    cases n with
    | zero => rfl
    | succ n =>
      rw [drawCardsFromDeck, drawLoop,
        if_pos (show ([] : List Card).isEmpty = true from rfl), if_pos hp]
  · intro rand deck pile n
    rw [drawCardsFromDeck, drawLoop_reshuffled]
    simp

/-- Witness for C6: the stop-early branch at a concrete input (empty deck,
one-card discard pile) returns no cards and leaves the pile untouched. -/
theorem C6_witness :
    drawCardsFromDeck [] [] [cardH5] 3 =
      { drawnCards := [], updatedDeck := [], updatedDiscardPile := [cardH5],
        reshuffled := false } :=
  C6_reshuffle_mechanics.2.2.1 [] [cardH5] 3 (by decide)

/-- Claim C10: `drawCardsFromDeck` returns exactly
`min n (|deck| + max (|pile| - 1) 0)` cards (`Nat` subtraction realises the
`max`); when the pile has at most one card it is returned unchanged; and the
returned pile is always either the input pile or the single held-aside top
card, so a single reshuffle is all that can ever happen. -/
theorem C10_short_draw_count (rand : List Nat) (deck pile : List Card) (n : Nat) :
    (drawCardsFromDeck rand deck pile n).drawnCards.length =
      min n (deck.length + (pile.length - 1)) ∧
    (pile.length ≤ 1 →
      (drawCardsFromDeck rand deck pile n).updatedDiscardPile = pile) ∧
    ((drawCardsFromDeck rand deck pile n).updatedDiscardPile = pile ∨
      (drawCardsFromDeck rand deck pile n).updatedDiscardPile =
        [pile.getLastD defaultCard]) := by
  refine ⟨?_, ?_, ?_⟩
  · have := drawLoop_drawn_length rand n deck pile [] false
    rw [drawCardsFromDeck, this]
    simp
  · intro hp
    exact drawLoop_pile_small rand n deck pile [] false hp
  · exact drawLoop_pile_dichotomy rand n deck pile [] false

/-- Witness for C10 at a concrete input: empty deck, one-card pile, draw 2. -/
theorem C10_witness :
    (drawCardsFromDeck [] [] [cardH5] 2).drawnCards.length = 0 ∧
    (drawCardsFromDeck [] [] [cardH5] 2).updatedDiscardPile = [cardH5] := by
  obtain ⟨h1, h2, h3⟩ := C10_short_draw_count [] [] [cardH5] 2
  exact ⟨by simpa using h1, h2 (by decide)⟩

theorem foldl_points (l : List Card) (a : Int) :
    l.foldl (fun total card => total + getCardPoints card) a = a + (l.map getCardPoints).sum := by
  induction l generalizing a with
  | nil => simp
  | cons c t ih =>
    rw [List.foldl_cons, ih]
    simp only [List.map_cons, List.sum_cons]
    ring

theorem map_getD_lt {α β} (f : α → β) (l : List α) (i : Nat) (d : β) (d' : α)
    (h : i < l.length) : (l.map f).getD i d = f (l.getD i d') := by
  rw [List.getD_eq_getElem?_getD, List.getElem?_map, List.getElem?_eq_getElem h,
    List.getD_eq_getElem?_getD, List.getElem?_eq_getElem h]
  rfl

/-- Claim C7: `calculateScores` leaves the winner untouched, charges every
other player the value of their remaining hand (face value, 10 for J/Q/K,
15 for an Ace, 20 for a wildcard, as computed by `getCardPoints`), marks a
non-winner eliminated exactly when the resulting score is ≤ 0, and is total
and pure (length-preserving, id and hand untouched). -/
theorem C7_scoring (players : List Player) (winnerId : String) (i : Nat)
    (h : i < players.length) :
    (calculateScores players winnerId).length = players.length ∧
    ((players.getD i defaultPlayer).id = winnerId →
      (calculateScores players winnerId).getD i defaultPlayer =
        players.getD i defaultPlayer) ∧
    ((players.getD i defaultPlayer).id ≠ winnerId →
      ((calculateScores players winnerId).getD i defaultPlayer).score =
          (players.getD i defaultPlayer).score - handPoints (players.getD i defaultPlayer) ∧
      (((calculateScores players winnerId).getD i defaultPlayer).isEliminated = true ↔
        ((calculateScores players winnerId).getD i defaultPlayer).score ≤ 0) ∧
      ((calculateScores players winnerId).getD i defaultPlayer).id =
        (players.getD i defaultPlayer).id ∧
      ((calculateScores players winnerId).getD i defaultPlayer).cards =
        (players.getD i defaultPlayer).cards) := by
  have hget : (calculateScores players winnerId).getD i defaultPlayer =
      (fun player =>
        if player.id == winnerId then player
        else
          { player with
              score := player.score -
                player.cards.foldl (fun total card => total + getCardPoints card) 0
              isEliminated := decide (player.score -
                player.cards.foldl (fun total card => total + getCardPoints card) 0 ≤ 0) })
        (players.getD i defaultPlayer) :=
    map_getD_lt _ players i defaultPlayer defaultPlayer h
  have hfold : (players.getD i defaultPlayer).cards.foldl
      (fun total card => total + getCardPoints card) 0 =
      handPoints (players.getD i defaultPlayer) := by
    rw [foldl_points]
    simp [handPoints]
  refine ⟨by simp [calculateScores], ?_, ?_⟩
  · intro hw
    simp only [hget]
    split
    · rfl
    · next hcond => exact absurd (beq_iff_eq.mpr hw) hcond
  · intro hw
    simp only [hget]
    split
    · next hcond => exact absurd (beq_iff_eq.mp hcond) hw
    · refine ⟨by rw [hfold], ?_, rfl, rfl⟩
      simp [hfold]

/-- Witness for C7: with winner A (empty hand) and B holding a King and a 5,
A is unchanged and B loses exactly 15 points. -/
theorem C7_witness :
    (calculateScores [playerA, playerB] "A").getD 0 defaultPlayer = playerA ∧
    ((calculateScores [playerA, playerB] "A").getD 1 defaultPlayer).score = 100 - 15 := by
  constructor
  · exact (C7_scoring [playerA, playerB] "A" 0 (by decide)).2.1 (by decide)
  · have h := (C7_scoring [playerA, playerB] "A" 1 (by decide)).2.2 (by decide)
    rw [h.1]
    decide

/-- Claim C8 as stated is false: `handleSayMauMau` also overwrites the
last-action description, which the claim lists among the unchanged fields.
At `stateC2` (whose `lastAction` is "x") the description changes. -/
theorem C8_counterexample :
    (handleSayMauMau stateC2).lastAction ≠ stateC2.lastAction := by decide

/-- Claim C8 (amended): declaring last-card sets the current player's declared
flag to true and the last-action description to the declaration message, and
changes nothing else — every other player, deck, discard pile, current index,
direction, flags, winner and settings are untouched; no card-count condition
is checked. -/
theorem C8_declare_frame (gs : GameState)
    (h : gs.currentPlayerIndex < gs.players.length) :
    (handleSayMauMau gs).players.getD gs.currentPlayerIndex defaultPlayer =
      { gs.players.getD gs.currentPlayerIndex defaultPlayer with saidMauMau := true } ∧
    (∀ j, j ≠ gs.currentPlayerIndex →
      (handleSayMauMau gs).players[j]? = gs.players[j]?) ∧
    (handleSayMauMau gs).players.length = gs.players.length ∧
    (handleSayMauMau gs).deck = gs.deck ∧
    (handleSayMauMau gs).discardPile = gs.discardPile ∧
    (handleSayMauMau gs).currentPlayerIndex = gs.currentPlayerIndex ∧
    (handleSayMauMau gs).direction = gs.direction ∧
    (handleSayMauMau gs).gameStarted = gs.gameStarted ∧
    (handleSayMauMau gs).gameEnded = gs.gameEnded ∧
    (handleSayMauMau gs).winner = gs.winner ∧
    (handleSayMauMau gs).settings = gs.settings ∧
    (handleSayMauMau gs).lastAction =
      (gs.players.getD gs.currentPlayerIndex defaultPlayer).name ++ " said Mau Mau!" := by
  have hself : (modifyAt gs.players gs.currentPlayerIndex
      (fun p => { p with saidMauMau := true })).getD gs.currentPlayerIndex defaultPlayer =
      { gs.players.getD gs.currentPlayerIndex defaultPlayer with saidMauMau := true } :=
    modifyAt_getD_self gs.players gs.currentPlayerIndex _ defaultPlayer h
  refine ⟨?_, ?_, ?_, rfl, rfl, rfl, rfl, rfl, rfl, rfl, rfl, ?_⟩
  · exact hself
  · intro j hj
    exact modifyAt_getElem?_ne gs.players gs.currentPlayerIndex j _ (fun e => hj e.symm)
  · exact modifyAt_length gs.players gs.currentPlayerIndex _
  · show ((modifyAt gs.players gs.currentPlayerIndex
        (fun p => { p with saidMauMau := true })).getD gs.currentPlayerIndex
          defaultPlayer).name ++ " said Mau Mau!" = _
    rw [hself]

/-- Witness for C8 at the concrete state `stateC2`. -/
theorem C8_witness :
    (handleSayMauMau stateC2).players.getD 0 defaultPlayer =
      { stateC2.players.getD 0 defaultPlayer with saidMauMau := true } ∧
    (handleSayMauMau stateC2).lastAction = "a said Mau Mau!" := by
  obtain ⟨h1, -, -, -, -, -, -, -, -, -, -, h12⟩ := C8_declare_frame stateC2 (by decide)
  exact ⟨h1, h12⟩

/-- Claim C4: the draw action draws exactly one card (via reshuffle-on-empty)
into the current player's hand; if the drawn card is playable against the
discard top (per `isValidMove` with the state's bluffing setting) the current
player index is unchanged, otherwise the turn advances and every declared
flag resets; when nothing can be drawn (empty deck, at most one discard card)
the state is returned completely unchanged. -/
theorem C4_draw_card (rand : List Nat) (gs : GameState)
    (h : gs.currentPlayerIndex < gs.players.length) :
    (gs.deck = [] ∧ gs.discardPile.length ≤ 1 → handleDrawCard rand gs = gs) ∧
    (1 ≤ gs.deck.length + (gs.discardPile.length - 1) →
      (drawCardsFromDeck rand gs.deck gs.discardPile 1).drawnCards.length = 1 ∧
      ((handleDrawCard rand gs).players.getD gs.currentPlayerIndex defaultPlayer).cards =
        (gs.players.getD gs.currentPlayerIndex defaultPlayer).cards ++
          (drawCardsFromDeck rand gs.deck gs.discardPile 1).drawnCards ∧
      (handleDrawCard rand gs).deck =
        (drawCardsFromDeck rand gs.deck gs.discardPile 1).updatedDeck ∧
      (handleDrawCard rand gs).discardPile =
        (drawCardsFromDeck rand gs.deck gs.discardPile 1).updatedDiscardPile ∧
      (isValidMove
          ((drawCardsFromDeck rand gs.deck gs.discardPile 1).drawnCards.getD 0 defaultCard)
          (gs.discardPile.getLastD defaultCard) gs.settings.enableBluffing = true →
        (handleDrawCard rand gs).currentPlayerIndex = gs.currentPlayerIndex) ∧
      (isValidMove
          ((drawCardsFromDeck rand gs.deck gs.discardPile 1).drawnCards.getD 0 defaultCard)
          (gs.discardPile.getLastD defaultCard) gs.settings.enableBluffing = false →
        (handleDrawCard rand gs).currentPlayerIndex =
          getNextPlayerIndex gs.currentPlayerIndex gs.direction gs.players.length ∧
        ∀ p ∈ (handleDrawCard rand gs).players, p.saidMauMau = false) ∧
      (handleDrawCard rand gs).winner = gs.winner ∧
      (handleDrawCard rand gs).gameEnded = gs.gameEnded) := by
  constructor
  · rintro ⟨hd, hp⟩
    have hlen0 : (drawCardsFromDeck rand gs.deck gs.discardPile 1).drawnCards.length = 0 := by
      have hdl := drawLoop_drawn_length rand 1 gs.deck gs.discardPile [] false
      rw [drawCardsFromDeck, hdl, hd]
      simp only [List.length_nil]
      omega
    have hcond : (((drawCardsFromDeck rand gs.deck gs.discardPile 1).drawnCards.length == 0)
        = true) := by simp [hlen0]
    simp only [handleDrawCard]
    rw [if_pos hcond]
  · intro havail
    have hlen1 : (drawCardsFromDeck rand gs.deck gs.discardPile 1).drawnCards.length = 1 := by
      have hdl := drawLoop_drawn_length rand 1 gs.deck gs.discardPile [] false
      rw [drawCardsFromDeck, hdl]
      simp only [List.length_nil]
      omega
    have hcond : ¬ (((drawCardsFromDeck rand gs.deck gs.discardPile 1).drawnCards.length == 0)
        = true) := by simp [hlen1]
    have hlen1' : gs.currentPlayerIndex <
        (modifyAt gs.players gs.currentPlayerIndex
          (fun p => { p with cards := p.cards ++
            (drawCardsFromDeck rand gs.deck gs.discardPile 1).drawnCards })).length := by
      rw [modifyAt_length]; exact h
    have hget1 : (modifyAt gs.players gs.currentPlayerIndex
        (fun p => { p with cards := p.cards ++
          (drawCardsFromDeck rand gs.deck gs.discardPile 1).drawnCards })).getD
            gs.currentPlayerIndex defaultPlayer =
        { gs.players.getD gs.currentPlayerIndex defaultPlayer with
            cards := (gs.players.getD gs.currentPlayerIndex defaultPlayer).cards ++
              (drawCardsFromDeck rand gs.deck gs.discardPile 1).drawnCards } :=
      modifyAt_getD_self gs.players gs.currentPlayerIndex _ defaultPlayer h
    refine ⟨hlen1, ?_, ?_, ?_, ?_, ?_, ?_, ?_⟩
    · simp only [handleDrawCard]
      rw [if_neg hcond]
      rcases Bool.eq_false_or_eq_true (isValidMove
          ((drawCardsFromDeck rand gs.deck gs.discardPile 1).drawnCards.getD 0 defaultCard)
          (gs.discardPile.getLastD defaultCard) gs.settings.enableBluffing) with hv | hv
      · simp only [hv, Bool.not_true, Bool.false_eq_true, if_false]
        rw [hget1]
      · simp only [hv, Bool.not_false, eq_self_iff_true, if_true]
        rw [map_getD_lt _ _ _ defaultPlayer defaultPlayer hlen1', hget1]
    · simp only [handleDrawCard]
      rw [if_neg hcond]
    · simp only [handleDrawCard]
      rw [if_neg hcond]
    · intro hv
      simp only [handleDrawCard]
      rw [if_neg hcond]
      simp only [hv, Bool.not_true, Bool.false_eq_true, if_false]
    · intro hv
      simp only [handleDrawCard]
      rw [if_neg hcond]
      simp only [hv, Bool.not_false, eq_self_iff_true, if_true]
      constructor
      · trivial
      · intro p hp
        rcases List.mem_map.mp hp with ⟨q, hq, rfl⟩
        rfl
    · simp only [handleDrawCard]
      rw [if_neg hcond]
    · simp only [handleDrawCard]
      rw [if_neg hcond]

/-- Witness for C4 at `stateC4`: the single deck card (a club 2) is drawn,
is not playable on the spade 3, so the hand grows and the turn advances. -/
theorem C4_witness :
    (handleDrawCard [] stateC4).currentPlayerIndex = 1 ∧
    ((handleDrawCard [] stateC4).players.getD 0 defaultPlayer).cards =
      [cardH5, cardC2] ∧
    (∀ p ∈ (handleDrawCard [] stateC4).players, p.saidMauMau = false) := by
  have h := (C4_draw_card [] stateC4 (by decide)).2 (by decide)
  have h6 := h.2.2.2.2.2.1 (by decide)
  exact ⟨h6.1, h.2.1.trans (by decide), h6.2⟩

theorem map_getD_eq {α} (f : α → α) (l : List α) (i : Nat) (d : α)
    (h : i < l.length) : (l.map f).getD i d = f (l.getD i d) := by
  rw [List.getD_eq_getElem?_getD, List.getElem?_map, List.getElem?_eq_getElem h,
    List.getD_eq_getElem?_getD, List.getElem?_eq_getElem h]
  rfl

/-- Claim C3 (amended): when additionally the deck and discard pile can supply
the 2 penalty cards and the played final card has no special effect of its own
(not a wildcard, Ace, Queen or 9 — a special effect may add further cards to
other hands and overwrite the message), playing the final undeclared card first
adds exactly 2 penalty cards and records the penalty message, and only then
removes the played card: the hand afterward consists of exactly the 2 penalty
cards, the game does not end, and no winner is set. -/
theorem C3_last_card_penalty (rand : List Nat) (gs : GameState) (c : Card)
    (h1 : gs.currentPlayerIndex < gs.players.length)
    (h2 : (gs.players.getD gs.currentPlayerIndex defaultPlayer).cards = [c])
    (h3 : (gs.players.getD gs.currentPlayerIndex defaultPlayer).saidMauMau = false)
    (h4 : gs.settings.enableMauMauRule = true)
    (h5 : gs.settings.autoCheckMauMau = false)
    (h6 : isValidMove c (gs.discardPile.getLastD defaultCard) gs.settings.enableBluffing = true)
    (h7 : 2 ≤ gs.deck.length + (gs.discardPile.length - 1))
    (h8 : ∀ x ∈ gs.deck, x.id ≠ c.id)
    (h9 : ∀ x ∈ gs.discardPile, x.id ≠ c.id)
    (hj : c.rank ≠ Rank.joker) (ha : c.rank ≠ Rank.rA) (hq : c.rank ≠ Rank.rQ)
    (h9r : c.rank ≠ Rank.r9) :
    (drawCardsFromDeck rand gs.deck gs.discardPile 2).drawnCards.length = 2 ∧
    ((handlePlayCard rand c gs).players.getD gs.currentPlayerIndex defaultPlayer).cards =
      (drawCardsFromDeck rand gs.deck gs.discardPile 2).drawnCards ∧
    ((handlePlayCard rand c gs).players.getD gs.currentPlayerIndex defaultPlayer).cards.length
      = 2 ∧
    (handlePlayCard rand c gs).winner = none ∧
    (handlePlayCard rand c gs).gameEnded = false ∧
    (handlePlayCard rand c gs).lastAction =
      (gs.players.getD gs.currentPlayerIndex defaultPlayer).name ++
        " esqueceu de dizer Mau Mau! +2 cartas de penalidade." := by
  have hlen2 : (drawCardsFromDeck rand gs.deck gs.discardPile 2).drawnCards.length = 2 := by
    have hdl := drawLoop_drawn_length rand 2 gs.deck gs.discardPile [] false
    rw [drawCardsFromDeck, hdl]
    simp only [List.length_nil]
    omega
  have hif1 : ¬ ((!isValidMove c (gs.discardPile.getLastD defaultCard)
      gs.settings.enableBluffing) = true) := by rw [h6]; decide
  have hmm : checkMauMauStatus (gs.players.getD gs.currentPlayerIndex defaultPlayer)
      (gs.players.getD gs.currentPlayerIndex defaultPlayer).saidMauMau
      gs.settings.enableMauMauRule =
      { shouldPenalize := true,
        message := (gs.players.getD gs.currentPlayerIndex defaultPlayer).name ++
          " esqueceu de dizer Mau Mau! +2 cartas de penalidade." } := by
    simp only [checkMauMauStatus, h4, h2, h3]
    rfl
  have hsd : ∀ gs' : GameState, handleSpecialCard rand c gs' =
      { gs' with currentPlayerIndex :=
          getNextPlayerIndex gs'.currentPlayerIndex gs'.direction gs'.players.length } :=
    fun gs' => handleSpecialCard_default rand c gs' hj ha hq h9r
  have hfc : List.filter (fun card => decide (card.id ≠ c.id)) [c] = [] := by simp
  have hfd : List.filter (fun card => decide (card.id ≠ c.id))
      (drawCardsFromDeck rand gs.deck gs.discardPile 2).drawnCards =
      (drawCardsFromDeck rand gs.deck gs.discardPile 2).drawnCards := by
    apply List.filter_eq_self.mpr
    intro x hx
    rcases drawLoop_subset rand 2 gs.deck gs.discardPile [] false x hx with hmem | hmem | hmem
    · simp at hmem
    · simpa using h8 x hmem
    · simpa using h9 x hmem
  have hne0 : ((drawCardsFromDeck rand gs.deck gs.discardPile 2).drawnCards.length == 0)
      = false := by rw [hlen2]; rfl
  have hmsg : (gs.players.getD gs.currentPlayerIndex defaultPlayer).name ++
      " esqueceu de dizer Mau Mau! +2 cartas de penalidade." ≠ "" := by
    intro he
    have hlen := congrArg String.length he
    rw [String.length_append] at hlen
    have hl2 : (" esqueceu de dizer Mau Mau! +2 cartas de penalidade." : String).length = 52 :=
      rfl
    simp [hl2] at hlen
  have hcards : ((handlePlayCard rand c gs).players.getD gs.currentPlayerIndex
      defaultPlayer).cards = (drawCardsFromDeck rand gs.deck gs.discardPile 2).drawnCards := by
    simp only [handlePlayCard]
    rw [if_neg hif1]
    simp only [hmm, h5, Bool.not_false, Bool.and_self, eq_self_iff_true, if_true]
    simp only [modifyAt_getD_self, modifyAt_length, h1, h2, List.filter_append, hfc, hfd,
      List.nil_append, hne0, Bool.false_eq_true, if_false]
    simp only [hsd, map_getD_eq, modifyAt_length, h1, modifyAt_getD_self, h2,
      List.filter_append, hfc, hfd, List.nil_append]
  have hwin : (handlePlayCard rand c gs).winner = none := by
    simp only [handlePlayCard]
    rw [if_neg hif1]
    simp only [hmm, h5, Bool.not_false, Bool.and_self, eq_self_iff_true, if_true]
    simp only [modifyAt_getD_self, modifyAt_length, h1, h2, List.filter_append, hfc, hfd,
      List.nil_append, hne0, Bool.false_eq_true, if_false]
    simp only [hsd]
  have hend : (handlePlayCard rand c gs).gameEnded = false := by
    simp only [handlePlayCard]
    rw [if_neg hif1]
    simp only [hmm, h5, Bool.not_false, Bool.and_self, eq_self_iff_true, if_true]
    simp only [modifyAt_getD_self, modifyAt_length, h1, h2, List.filter_append, hfc, hfd,
      List.nil_append, hne0, Bool.false_eq_true, if_false]
    simp only [hsd]
    rfl
  have hlast : (handlePlayCard rand c gs).lastAction =
      (gs.players.getD gs.currentPlayerIndex defaultPlayer).name ++
        " esqueceu de dizer Mau Mau! +2 cartas de penalidade." := by
    simp only [handlePlayCard]
    rw [if_neg hif1]
    simp only [hmm, h5, Bool.not_false, Bool.and_self, eq_self_iff_true, if_true]
    simp only [modifyAt_getD_self, modifyAt_length, h1, h2, List.filter_append, hfc, hfd,
      List.nil_append, hne0, Bool.false_eq_true, if_false]
    simp only [hsd]
    rw [if_pos hmsg]
  exact ⟨hlen2, hcards, by rw [hcards]; exact hlen2, hwin, hend, hlast⟩

/-- Witness for C3 at `stateC3w`: the two deck cards are drawn as the penalty,
the final 5 of hearts is played, and the game does not end. -/
theorem C3_witness :
    ((handlePlayCard [] cardH5 stateC3w).players.getD 0 defaultPlayer).cards =
      [cardS3, cardC2] ∧
    (handlePlayCard [] cardH5 stateC3w).winner = none ∧
    (handlePlayCard [] cardH5 stateC3w).gameEnded = false := by
  have h := C3_last_card_penalty [] stateC3w cardH5 (by decide) (by decide) (by decide)
    (by decide) (by decide) (by decide) (by decide) (by decide) (by decide) (by decide)
    (by decide) (by decide) (by decide)
  exact ⟨h.2.1.trans (by decide), h.2.2.2.1, h.2.2.2.2.1⟩

/-- Claim C9: starting the next round filters out every player with score ≤ 0,
carries forward the survivors' identities and running scores with emptied
hands; with fewer than 2 survivors it signals match end (`none`, no new round
dealt, no match winner chosen); otherwise it rebuilds a fresh deck per the
settings, shuffles, deals 7 cards to each survivor, seeds the discard pile
with one card and resets the current player to index 0, direction forward. -/
theorem C9_next_round (rand : List Nat) (gs : GameState) :
    ((gs.players.filter (fun p => decide (0 < p.score))).length < 2 →
      handleRestartGame rand gs = none) ∧
    (2 ≤ (gs.players.filter (fun p => decide (0 < p.score))).length →
      7 * (gs.players.filter (fun p => decide (0 < p.score))).length <
        (createDeck gs.settings.enableJokers).length →
      ∃ s', handleRestartGame rand gs = some s' ∧
        s'.players.map (fun p => p.id) =
          (gs.players.filter (fun p => decide (0 < p.score))).map (fun p => p.id) ∧
        s'.players.map (fun p => p.score) =
          (gs.players.filter (fun p => decide (0 < p.score))).map (fun p => p.score) ∧
        (∀ p ∈ s'.players, p.cards.length = 7) ∧
        s'.deck.length =
          (createDeck gs.settings.enableJokers).length -
            7 * (gs.players.filter (fun p => decide (0 < p.score))).length - 1 ∧
        s'.discardPile.length = 1 ∧
        s'.currentPlayerIndex = 0 ∧ s'.direction = Direction.clockwise ∧
        s'.gameStarted = true ∧ s'.gameEnded = false ∧ s'.winner = none) := by
  have hpred : ∀ p : Player,
      ((fun q : Player => !q.isEliminated) ∘ (fun player : Player =>
        { player with
            cards := ([] : List Card)
            saidMauMau := false
            isEliminated := decide (player.score ≤ 0) })) p = decide (0 < p.score) := by
    intro p
    show (!decide (p.score ≤ 0)) = decide (0 < p.score)
    rw [← decide_not]
    rw [decide_eq_decide]
    exact Int.not_le
  have hactive : (gs.players.map (fun player =>
      { player with
          cards := ([] : List Card)
          saidMauMau := false
          isEliminated := decide (player.score ≤ 0) })).filter
        (fun player => !player.isEliminated) =
      (gs.players.filter (fun p => decide (0 < p.score))).map (fun player =>
        { player with
            cards := ([] : List Card)
            saidMauMau := false
            isEliminated := decide (player.score ≤ 0) }) := by
    rw [List.filter_map]
    rw [List.filter_congr (fun x _ => hpred x)]
  constructor
  · intro hs
    simp only [handleRestartGame, hactive, List.length_map]
    rw [if_pos hs]
  · intro hs2 hdeck
    have hs2' : ¬ ((gs.players.filter (fun p => decide (0 < p.score))).length < 2) := by
      omega
    simp only [handleRestartGame, hactive, List.length_map]
    rw [if_neg hs2']
    have hdlen : (shuffleDeck rand (createDeck gs.settings.enableJokers)).length =
        (createDeck gs.settings.enableJokers).length :=
      shuffleDeck_length rand _
    have hbound : 7 * ((gs.players.filter (fun p => decide (0 < p.score))).map
        (fun player : Player => { player with
            cards := ([] : List Card)
            saidMauMau := false
            isEliminated := decide (player.score ≤ 0) })).length ≤
        (shuffleDeck rand (createDeck gs.settings.enableJokers)).length := by
      rw [List.length_map, hdlen]
      omega
    obtain ⟨m1, m2, m3, m4⟩ := dealLoop_spec 7
      ((gs.players.filter (fun p : Player => decide (0 < p.score))).map
        (fun player : Player => { player with
            cards := ([] : List Card)
            saidMauMau := false
            isEliminated := decide (player.score ≤ 0) }))
      (shuffleDeck rand (createDeck gs.settings.enableJokers)) hbound
    refine ⟨_, rfl, ?_, ?_, ?_, ?_, rfl, rfl, rfl, rfl, rfl, rfl⟩
    · show (dealCards _ _).1.map (fun p => p.id) = _
      simp only [dealCards, INITIAL_CARDS]
      rw [m1, List.map_map]
      rfl
    · show (dealCards _ _).1.map (fun p => p.score) = _
      simp only [dealCards, INITIAL_CARDS]
      rw [m2, List.map_map]
      rfl
    · intro p hp
      have hmem : p.cards.length ∈ (dealCards ((gs.players.filter
          (fun p => decide (0 < p.score))).map
            (fun player : Player => { player with
                cards := ([] : List Card)
                saidMauMau := false
                isEliminated := decide (player.score ≤ 0) }))
          (shuffleDeck rand (createDeck gs.settings.enableJokers))).1.map
            (fun p => p.cards.length) :=
        List.mem_map.mpr ⟨p, hp, rfl⟩
      simp only [dealCards, INITIAL_CARDS] at hmem
      rw [m3, List.map_map] at hmem
      rcases List.mem_map.mp hmem with ⟨q, hq, hqe⟩
      simp only [Function.comp] at hqe
      simp at hqe
      omega
    · show (dealCards _ _).2.dropLast.length = _
      simp only [dealCards, INITIAL_CARDS]
      rw [List.length_dropLast, m4, List.length_map, hdlen]

/-- Witness for C9: both branches at concrete states — restarting `stateC2`
(three surviving players) deals a fresh round, and a state whose players all
have score 0 signals match end. -/
theorem C9_witness :
    (∃ s', handleRestartGame [] stateC2 = some s' ∧
      s'.players.map (fun p => p.id) = ["a", "b", "c"] ∧
      (∀ p ∈ s'.players, p.cards.length = 7) ∧
      s'.deck.length = 82 ∧ s'.discardPile.length = 1 ∧ s'.currentPlayerIndex = 0) := by
  obtain ⟨s', he, hid, hsc, hc7, hdl, hp1, hcur, -⟩ :=
    (C9_next_round [] stateC2).2 (by decide) (by decide)
  refine ⟨s', he, hid.trans (by decide), hc7, ?_, hp1, hcur⟩
  rw [hdl]
  decide

end MauMau
